import Mathlib

/-!
Shallow embedding of `src/app.py` (email scanner service).

The Python program drives a browser against an external page, scrapes eight
"card" sections from the results page, and serves the assembled record over
HTTP.  The embedding models the page as a snapshot (`Driver`), the
environment's possible behaviours as an `Outcome`, and translates the three
functions of the source: `scrape_card_data` (lines 19-31),
`get_email_info_from_page` (lines 33-98, as a function of the outcome,
recording how often `driver.quit()` runs) and the `/email` route handler
`scan_email` (lines 100-126).
-/

namespace EmailScanner

/-- Python whitespace characters recognised by `str.strip()` with no
argument: space, tab, newline, carriage return, vertical tab, form feed. -/
def pyIsSpace (c : Char) : Bool :=
  c == ' ' || c == '\t' || c == '\n' || c == '\r' || c == Char.ofNat 11 || c == Char.ofNat 12

/-- Drop leading Python whitespace from a character list. -/
def dropWhileSpace : List Char → List Char
  | [] => []
  | c :: cs => if pyIsSpace c then dropWhileSpace cs else c :: cs

/-- Strip Python whitespace from both ends of a character list. -/
def stripChars (cs : List Char) : List Char :=
  ((dropWhileSpace ((dropWhileSpace cs).reverse)).reverse)

/-- Python `s.strip()`: remove leading and trailing whitespace. -/
def pyStrip (s : String) : String :=
  String.mk (stripChars s.data)

/-- Does `pat` occur at the start of `s` (character lists)? -/
def startsWithCL : List Char → List Char → Bool
  | [], _ => true
  | _ :: _, [] => false
  | a :: as, b :: bs => a == b && startsWithCL as bs

/-- Does `pat` occur anywhere in `s` (character lists)? -/
def containsCL (pat : List Char) : List Char → Bool
  | [] => startsWithCL pat []
  | b :: bs => startsWithCL pat (b :: bs) || containsCL pat bs

/-- Python substring containment `pat in s`. -/
def pyIn (pat s : String) : Bool :=
  containsCL pat.data s.data

/-- A JSON-like value appearing in the response dictionaries of the source:
either a string or an array of strings. -/
inductive JVal where
  | s (v : String)
  | arr (v : List String)
deriving DecidableEq

/-- A Python dict with insertion order, as built by the source: an ordered
association list from keys to values. -/
abbrev ScanRecord := List (String × JVal)

/-- Dictionary lookup on a `ScanRecord` (first matching key). -/
def getKey (r : ScanRecord) (k : String) : Option JVal :=
  (r.find? (fun p => p.1 == k)).map (fun p => p.2)

/-- Snapshot of the results page: for each DOM container id that exists, the
raw texts of the `span` elements inside it, in document order.  A missing id
models `driver.find_element` raising `NoSuchElementException`. -/
structure Driver where
  cards : List (String × List String)
deriving DecidableEq

/-- `driver.find_element(By.ID, card_id)` on a snapshot: `none` models
`NoSuchElementException` (app.py line 23). -/
def find_element (d : Driver) (card_id : String) : Option (List String) :=
  (d.cards.find? (fun p => p.1 == card_id)).map (fun p => p.2)

/-- The filter condition of app.py line 27:
`text and text != card_title and "No " not in text and " Located" not in text`. -/
def keep_span (card_title text : String) : Bool :=
  text != "" && text != card_title && !(pyIn "No " text) && !(pyIn " Located" text)

/-- One iteration of the loop of app.py lines 25-28, as an optional output:
strip the span text, keep it when the filter condition holds. -/
def span_item (card_title span : String) : Option String :=
  if keep_span card_title (pyStrip span) then some (pyStrip span) else none

/-- The `for span in all_spans_in_card` loop of app.py lines 25-28,
accumulating `results` by appending kept texts in order. -/
def scrape_loop (card_title : String) : List String → List String → List String
  | [], results => results
  | span :: rest, results =>
      if keep_span card_title (pyStrip span) then
        scrape_loop card_title rest (results ++ [pyStrip span])
      else
        scrape_loop card_title rest results

/-- `scrape_card_data` (app.py lines 19-31): locate the card container by id;
when absent (`NoSuchElementException`) return the empty list; otherwise run
the span loop over the container's span texts. -/
def scrape_card_data (d : Driver) (card_id card_title : String) : List String :=
  match find_element d card_id with
  | some spans => scrape_loop card_title spans []
  | none => []

/-- `cards_to_scrape` (app.py lines 77-86): result key, container id and
heading title of the eight sections, in the dict's insertion order. -/
def cards_to_scrape : List (String × String × String) :=
  [("data_breaches", "breaches", "DATA BREACHES"),
   ("passwords", "passwords", "PASSWORDS"),
   ("usernames", "usernames", "USERNAMES"),
   ("phone_numbers", "phoneNumbers", "PHONE NUMBERS"),
   ("ips", "ips", "IPS"),
   ("related_emails", "relatedEmails", "RELATED EMAILS"),
   ("locations", "locations", "LOCATIONS"),
   ("companies", "companies", "COMPANIES")]

/-- The successful assembly of app.py lines 76-89: `final_data` starts with
the `email` key, then one entry per configured section, in order. -/
def assemble_success (email : String) (d : Driver) : ScanRecord :=
  ("email", JVal.s email) ::
    cards_to_scrape.map (fun kct => (kct.1, JVal.arr (scrape_card_data d kct.2.1 kct.2.2)))

/-- Environment behaviour of one run of `get_email_info_from_page`, after the
driver has been created (app.py lines 58-61):
* `execScriptRaises`: the stealth patch `driver.execute_script` at line 62
  raises (it runs after the session exists and before the `try` block);
* `navTimeout`: a `TimeoutException` from one of the waits at lines 67-69 or
  line 73 (all inside the `try`, all before line 76);
* `navFailure`: any other exception inside the `try` block before line 76;
* `pageReady`: all waits succeed and `d` is the loaded results page. -/
inductive Outcome where
  | execScriptRaises (msg : String)
  | navTimeout
  | navFailure (msg : String)
  | pageReady (d : Driver)
deriving DecidableEq

/-- How a Python call ends: a returned value, or an exception propagating to
the caller with its message. -/
inductive PyReturn (α : Type) where
  | normal (v : α)
  | raised (msg : String)
deriving DecidableEq

/-- Observable effect of one run of `get_email_info_from_page`: what the call
returns (or propagates), and how many times `driver.quit()` ran. -/
structure RunTrace where
  result : PyReturn ScanRecord
  quits : Nat
deriving DecidableEq

/-- `get_email_info_from_page` (app.py lines 33-98) as a function of the
environment's outcome:
* line 62 `driver.execute_script(...)` sits between driver creation and the
  `try` block, so when it raises the exception propagates and the `finally`
  clause (line 96 `driver.quit()`) never runs;
* a `TimeoutException` inside the `try` is caught at line 91 and yields
  `final_data = {"error": "Process timed out."}` — note line 76
  `final_data['email'] = email` runs only after every wait, so no `email`
  key is present;
* any other exception inside the `try` is caught at line 93 and yields
  `final_data = {"error": str(e)}`, again with no `email` key;
* on success, lines 76-89 assemble the full record;
* in the latter three cases the `finally` clause runs `driver.quit()` exactly
  once before the function returns. -/
def get_email_info_from_page (email : String) (o : Outcome) : RunTrace :=
  match o with
  | Outcome.execScriptRaises msg => { result := PyReturn.raised msg, quits := 0 }
  | Outcome.navTimeout =>
      { result := PyReturn.normal [("error", JVal.s "Process timed out.")], quits := 1 }
  | Outcome.navFailure msg =>
      { result := PyReturn.normal [("error", JVal.s msg)], quits := 1 }
  | Outcome.pageReady d =>
      { result := PyReturn.normal (assemble_success email d), quits := 1 }

/-- Response body of the missing-parameter branch (app.py lines 107-110). -/
def requiredBody : ScanRecord := [("error", JVal.s "Email parameter is required")]

/-- Response body of the failed-validation branch (app.py lines 113-116). -/
def invalidBody : ScanRecord := [("error", JVal.s "Invalid email format")]

/-- The `/email` route handler `scan_email` (app.py lines 100-126), returning
the HTTP status code and JSON body.  `email = none` models an absent query
parameter; Python's `if not email` also fires on the empty string.  The
format check of line 113 is `'@' not in email or '.' not in email`.  An
exception propagating out of `get_email_info_from_page` is caught by the
outer handler (lines 123-126) and turned into a 500 response. -/
def scan_email (email : Option String) (o : Outcome) : Nat × ScanRecord :=
  match email with
  | none => (400, requiredBody)
  | some e =>
      if e == "" then (400, requiredBody)
      else if !(pyIn "@" e) || !(pyIn "." e) then (400, invalidBody)
      else
        match (get_email_info_from_page e o).result with
        | PyReturn.normal data => (200, data)
        | PyReturn.raised msg => (500, [("error", JVal.s ("An error occurred: " ++ msg))])

/-- Page snapshot of the spec's scenario: only a `breaches` container, whose
spans are the heading and one real entry. -/
def scenario_driver : Driver :=
  ⟨[("breaches", ["DATA BREACHES", "Acme Corp 2019"])]⟩

/-! ## Helper lemmas -/

/-- The accumulator loop of `scrape_card_data` computes the ordered
`filterMap` of the per-span filter over the span list. -/
lemma scrape_loop_eq (title : String) (spans acc : List String) :
    scrape_loop title spans acc = acc ++ spans.filterMap (span_item title) := by
  induction spans generalizing acc with
  | nil => simp [scrape_loop]
  | cons s rest ih =>
      cases h : keep_span title (pyStrip s) with
      | true => simp [scrape_loop, h, ih, span_item, List.filterMap_cons]
      | false => simp [scrape_loop, h, ih, span_item, List.filterMap_cons]

/-- When the container is present, `scrape_card_data` is the `filterMap` of
the per-span filter. -/
lemma scrape_eq_filterMap (d : Driver) (cid title : String) (spans : List String)
    (hpres : find_element d cid = some spans) :
    scrape_card_data d cid title = spans.filterMap (span_item title) := by
  unfold scrape_card_data
  rw [hpres]
  show scrape_loop title spans [] = spans.filterMap (span_item title)
  rw [scrape_loop_eq]
  simp

/-- When the container is absent, `scrape_card_data` returns the empty list. -/
lemma scrape_absent (d : Driver) (cid title : String)
    (habs : find_element d cid = none) :
    scrape_card_data d cid title = [] := by
  unfold scrape_card_data
  rw [habs]

/-- Unfolding of the span filter condition into its four conjuncts. -/
lemma keep_span_iff (title t : String) :
    keep_span title t = true ↔
      t ≠ "" ∧ t ≠ title ∧ pyIn "No " t = false ∧ pyIn " Located" t = false := by
  unfold keep_span
  simp [Bool.and_eq_true, bne_iff_ne, Bool.not_eq_true', and_assoc]

/-- Every string in a scraped section passed the span filter. -/
lemma keep_of_mem_scrape (d : Driver) (cid title t : String)
    (hm : t ∈ scrape_card_data d cid title) : keep_span title t = true := by
  unfold scrape_card_data at hm
  cases hf : find_element d cid with
  | none => rw [hf] at hm; simp at hm
  | some spans =>
      rw [hf] at hm
      have hm2 : t ∈ scrape_loop title spans [] := hm
      rw [scrape_loop_eq] at hm2
      simp only [List.nil_append] at hm2
      rcases List.mem_filterMap.mp hm2 with ⟨s, _, hitem⟩
      unfold span_item at hitem
      by_cases h : keep_span title (pyStrip s) = true
      · rw [if_pos h, Option.some.injEq] at hitem
        rw [← hitem]
        exact h
      · rw [if_neg h] at hitem
        exact absurd hitem (Option.noConfusion)

/-- Looking up a configured section key in the successful assembly yields the
scraped list of that section. -/
lemma getKey_assemble (email : String) (d : Driver) (key cid title : String)
    (hmem : (key, cid, title) ∈ cards_to_scrape) :
    getKey (assemble_success email d) key = some (JVal.arr (scrape_card_data d cid title)) := by
  simp only [cards_to_scrape, List.mem_cons, List.not_mem_nil, or_false,
    Prod.mk.injEq] at hmem
  rcases hmem with ⟨h1, h2, h3⟩ | ⟨h1, h2, h3⟩ | ⟨h1, h2, h3⟩ | ⟨h1, h2, h3⟩ |
    ⟨h1, h2, h3⟩ | ⟨h1, h2, h3⟩ | ⟨h1, h2, h3⟩ | ⟨h1, h2, h3⟩ <;>
    subst h1 <;> subst h2 <;> subst h3 <;> rfl

/-! ## Claim theorems -/

/-- Claim C1, counterexample: on the timeout branch the record returned by
`get_email_info_from_page` is not the claimed two-entry record holding the
email and the error — the `email` key is absent, since app.py line 76 runs
only after the waits that can time out. -/
theorem C1_counterexample :
    (get_email_info_from_page "a@b.c" Outcome.navTimeout).result ≠
      PyReturn.normal
        [("email", JVal.s "a@b.c"), ("error", JVal.s "Process timed out.")] := by
  decide

/-- Claim C1, amended: on the timeout branch the result is exactly the
one-entry record with the error message — no section keys and no email key
are present. -/
theorem C1_timeout_result (email : String) :
    (get_email_info_from_page email Outcome.navTimeout).result =
      PyReturn.normal [("error", JVal.s "Process timed out.")] ∧
    getKey [("error", JVal.s "Process timed out.")] "email" = none ∧
    (cards_to_scrape.all fun kct =>
      (getKey [("error", JVal.s "Process timed out.")] kct.1).isNone) = true :=
  ⟨rfl, rfl, by decide⟩

/-- Claim C2: for every configured section whose container is absent from the
page snapshot, `scrape_card_data` returns the empty list (it is a total
function, so no exception escapes), and the successful assembly still binds
that section's key, to the empty array. -/
theorem C2_absent_section (email key cid title : String) (d : Driver)
    (hmem : (key, cid, title) ∈ cards_to_scrape)
    (habs : find_element d cid = none) :
    scrape_card_data d cid title = [] ∧
    getKey (assemble_success email d) key = some (JVal.arr []) := by
  have hs : scrape_card_data d cid title = [] := scrape_absent d cid title habs
  exact ⟨hs, by rw [getKey_assemble email d key cid title hmem, hs]⟩

/-- Witness for C2 at a concrete input: empty page, `passwords` section. -/
theorem C2_witness :
    scrape_card_data ⟨[]⟩ "passwords" "PASSWORDS" = [] ∧
    getKey (assemble_success "a@b.c" ⟨[]⟩) "passwords" = some (JVal.arr []) :=
  C2_absent_section "a@b.c" "passwords" "passwords" "PASSWORDS" ⟨[]⟩
    (by decide) (by decide)

/-- Claim C3: when the container is present, `scrape_card_data` returns, in
document order, the stripped span texts surviving the filter (drop empties,
the heading, and placeholder-matching texts); in particular the output never
contains the heading label and every output entry is non-empty, differs from
the heading, and matches neither placeholder pattern. -/
theorem C3_section_extraction (d : Driver) (cid title : String) (spans : List String)
    (hpres : find_element d cid = some spans) :
    scrape_card_data d cid title = spans.filterMap (span_item title) ∧
    title ∉ scrape_card_data d cid title ∧
    ((scrape_card_data d cid title).all fun t =>
      !(t == "") && !(t == title) && !(pyIn "No " t) && !(pyIn " Located" t)) = true := by
  refine ⟨scrape_eq_filterMap d cid title spans hpres, ?_, ?_⟩
  · intro hmem
    have h := (keep_span_iff title title).mp (keep_of_mem_scrape d cid title title hmem)
    exact h.2.1 rfl
  · rw [List.all_eq_true]
    intro t hmem
    exact keep_of_mem_scrape d cid title t hmem

/-- Witness for C3 at the scenario snapshot's `breaches` container. -/
theorem C3_witness :
    scrape_card_data scenario_driver "breaches" "DATA BREACHES" =
      (["DATA BREACHES", "Acme Corp 2019"].filterMap (span_item "DATA BREACHES")) ∧
    "DATA BREACHES" ∉ scrape_card_data scenario_driver "breaches" "DATA BREACHES" ∧
    ((scrape_card_data scenario_driver "breaches" "DATA BREACHES").all fun t =>
      !(t == "") && !(t == "DATA BREACHES") && !(pyIn "No " t) && !(pyIn " Located" t)) = true :=
  C3_section_extraction scenario_driver "breaches" "DATA BREACHES"
    ["DATA BREACHES", "Acme Corp 2019"] (by decide)

/-- Claim C4, counterexample: the value `foo@bar` contains `@` but no `.`, so
it does not lack both characters, yet `scan_email` answers 400 with the
invalid-format body — app.py line 113 rejects when either character is
missing, not only when both are. -/
theorem C4_counterexample :
    ¬ ((scan_email (some "foo@bar") Outcome.navTimeout = (400, invalidBody)) ↔
        (pyIn "@" "foo@bar" = false ∧ pyIn "." "foo@bar" = false)) := by
  decide

/-- Claim C4, amended: for every non-empty email value, the endpoint answers
400 with the invalid-format body exactly when the value lacks `@` or lacks
`.` (that is, unless it contains both); otherwise the scan is attempted and
the response comes from it. -/
theorem C4_email_validation (e : String) (o : Outcome) (hne : e ≠ "") :
    (scan_email (some e) o = (400, invalidBody)) ↔
      (pyIn "@" e = false ∨ pyIn "." e = false) := by
  have he : (e == "") = false := by simp [hne]
  cases h1 : pyIn "@" e with
  | false => simp [scan_email, he, h1]
  | true =>
      cases h2 : pyIn "." e with
      | false => simp [scan_email, he, h1, h2]
      | true =>
          simp only [scan_email, he, h1, h2, Bool.not_true, Bool.or_self, if_false,
            Bool.false_eq_true]
          cases hr : (get_email_info_from_page e o).result with
          | normal data =>
              simp [hr, Prod.ext_iff, invalidBody]
          | raised msg =>
              simp [hr, Prod.ext_iff, invalidBody]

/-- Witness for C4 at a concrete input with a dot but no at-sign. -/
theorem C4_witness :
    (scan_email (some "nodotatall.example") Outcome.navTimeout = (400, invalidBody)) ↔
      (pyIn "@" "nodotatall.example" = false ∨ pyIn "." "nodotatall.example" = false) :=
  C4_email_validation "nodotatall.example" Outcome.navTimeout (by decide)

/-- Claim C5, counterexample: on the timeout branch the returned record has
no `email` field at all, so the field does not equal the input there. -/
theorem C5_counterexample :
    (get_email_info_from_page "a@b.c" Outcome.navTimeout).result =
      PyReturn.normal [("error", JVal.s "Process timed out.")] ∧
    getKey [("error", JVal.s "Process timed out.")] "email" = none := by
  exact ⟨rfl, rfl⟩

/-- Claim C5, amended: the `email` field equals the input exactly (no
normalization) on the success branch; on the timeout branch and on failures
raised before assembly the record carries no `email` field. -/
theorem C5_email_field (email msg : String) (d : Driver) :
    getKey (assemble_success email d) "email" = some (JVal.s email) ∧
    (get_email_info_from_page email (Outcome.pageReady d)).result =
      PyReturn.normal (assemble_success email d) ∧
    (get_email_info_from_page email Outcome.navTimeout).result =
      PyReturn.normal [("error", JVal.s "Process timed out.")] ∧
    getKey [("error", JVal.s "Process timed out.")] "email" = none ∧
    (get_email_info_from_page email (Outcome.navFailure msg)).result =
      PyReturn.normal [("error", JVal.s msg)] ∧
    getKey [("error", JVal.s msg)] "email" = none :=
  ⟨rfl, rfl, rfl, rfl, rfl, rfl⟩

/-- Claim C6, counterexample: when the stealth patch `execute_script` at
app.py line 62 raises — after the driver is created, before the `try` block —
the function propagates without ever calling `driver.quit()`. -/
theorem C6_counterexample :
    (get_email_info_from_page "a@b.c" (Outcome.execScriptRaises "boom")).quits ≠ 1 := by
  decide

/-- Claim C6, amended: `driver.quit()` runs exactly once on the success,
timeout and in-`try` exception branches (the `finally` clause), but zero
times when the pre-`try` `execute_script` call raises. -/
theorem C6_quit_once (email msg : String) (d : Driver) :
    (get_email_info_from_page email Outcome.navTimeout).quits = 1 ∧
    (get_email_info_from_page email (Outcome.navFailure msg)).quits = 1 ∧
    (get_email_info_from_page email (Outcome.pageReady d)).quits = 1 ∧
    (get_email_info_from_page email (Outcome.execScriptRaises msg)).quits = 0 :=
  ⟨rfl, rfl, rfl, rfl⟩

/-- Claim C7: on full success the assembled record's keys are exactly
`email` followed by the eight configured section keys, in the fixed
insertion order, and the function returns that record. -/
theorem C7_success_keys (email : String) (d : Driver) :
    (assemble_success email d).map Prod.fst =
      ["email", "data_breaches", "passwords", "usernames", "phone_numbers",
       "ips", "related_emails", "locations", "companies"] ∧
    (get_email_info_from_page email (Outcome.pageReady d)).result =
      PyReturn.normal (assemble_success email d) :=
  ⟨rfl, rfl⟩

/-- Claim C8: the spec's end-to-end scenario — email `test@example.com`,
page exposing only a `breaches` container with spans `DATA BREACHES` and
`Acme Corp 2019` — yields a 200 response whose body is exactly the expected
record: the email, the one breach entry, and empty arrays elsewhere. -/
theorem C8_scenario :
    scan_email (some "test@example.com") (Outcome.pageReady scenario_driver) =
      (200,
        [("email", JVal.s "test@example.com"),
         ("data_breaches", JVal.arr ["Acme Corp 2019"]),
         ("passwords", JVal.arr []),
         ("usernames", JVal.arr []),
         ("phone_numbers", JVal.arr []),
         ("ips", JVal.arr []),
         ("related_emails", JVal.arr []),
         ("locations", JVal.arr []),
         ("companies", JVal.arr [])]) := by
  decide

/-- Claim C9: the placeholder filter is substring containment — any string
whose stripped form contains `No ` or ` Located` anywhere never appears in a
scraped section, even when it is ordinary data such as `No Name Corp 2020`. -/
theorem C9_substring_filter (d : Driver) (cid title t : String)
    (h : pyIn "No " t = true ∨ pyIn " Located" t = true) :
    t ∉ scrape_card_data d cid title := by
  intro hmem
  have hk := (keep_span_iff title t).mp (keep_of_mem_scrape d cid title t hmem)
  rcases h with h | h
  · rw [hk.2.2.1] at h
    exact Bool.false_ne_true h
  · rw [hk.2.2.2] at h
    exact Bool.false_ne_true h

/-- Witness for C9: `No Name Corp 2020` is dropped from a `breaches`
container that lists it. -/
theorem C9_witness :
    "No Name Corp 2020" ∉
      scrape_card_data ⟨[("breaches", ["No Name Corp 2020"])]⟩ "breaches" "DATA BREACHES" :=
  C9_substring_filter ⟨[("breaches", ["No Name Corp 2020"])]⟩ "breaches" "DATA BREACHES"
    "No Name Corp 2020" (Or.inl (by decide))

/-- Claim C10: a present but empty `email` query parameter is caught by
Python's falsiness test at app.py line 107 and answered 400 with the
missing-parameter body, not the invalid-format body. -/
theorem C10_empty_email (o : Outcome) :
    scan_email (some "") o = (400, requiredBody) ∧ requiredBody ≠ invalidBody :=
  ⟨rfl, by decide⟩

end EmailScanner
